import Mathlib

/-!
Shallow embedding of the dodgem bumping agent (`src/app.js`).

The program chains, per cycle: login (first cycle only, via the `bump`
command's promise chain), trade scraping with an optional reduction to the
oldest trade, a per-trade bump loop with a try/catch around each trade, and
a `setTimeout`-based rescheduling of the next cycle.

Page-automation primitives (puppeteer calls) are modelled as abstract
`Action`s; an environment decides which primitive fails, and a duration
function gives each primitive's elapsed time, so failure injection and
timing are explicit parameters.
-/

namespace Dodgem

/-- The CLI `target` argument: `all` or `oldest` (`app.js` line 239). -/
inductive Target
  | all
  | oldest
deriving DecidableEq, Repr

/-- One page-automation primitive as invoked by `app.js`.  `goto` and
`typeText` take `Option String` because the program can pass JavaScript
`undefined` where a string is expected (missing credentials, out-of-range
listing index); `none` models `undefined`. -/
inductive Action
  | goto (url : Option String)
  | hover (selector : String)
  | focus (selector : String)
  | typeText (text : Option String)
  | click (selector : String)
  | waitForNavigation
  | delayMs (ms : Nat)
deriving DecidableEq, Repr

/-- Selector of the per-trade edit link (`app.js` line 128). -/
def editSelector : String := "[href^=\x27/trade/edit\x27]"

/-- Selector of the save/submit button inside a trade (`app.js` line 137). -/
def saveSelector : String := ".rlg-btn-primary[type=\"submit\"]"

/-- The primitive sequence the body of the `bumpTrades` try-block performs
for one trade (`app.js` lines 123-138): navigate to the trade, click edit,
wait, then — only when the target is `all` — a 10 second cooldown delay,
then click save and wait. -/
def itemSteps (target : Target) (tradeUrl : Option String) : List Action :=
  [Action.goto tradeUrl, Action.click editSelector, Action.waitForNavigation]
    ++ (if target = Target.all then [Action.delayMs (1000 * 10)] else [])
    ++ [Action.click saveSelector, Action.waitForNavigation]

/-- Run a primitive sequence under a failure environment `fail` and a
duration assignment `dur`.  The first failing primitive raises: the result
is `Except.error (elapsed, cause)`, the exception that a surrounding
JavaScript `try` would catch, carrying the raising primitive as cause.
When no primitive fails the result is `Except.ok elapsed`. -/
def runSteps (dur : Action → Nat) (fail : Action → Bool) :
    List Action → Except (Nat × Action) Nat
  | [] => Except.ok 0
  | a :: rest =>
      if fail a then Except.error (dur a, a)
      else
        match runSteps dur fail rest with
        | Except.ok t => Except.ok (dur a + t)
        | Except.error (t, c) => Except.error (dur a + t, c)

/-- The observable outcome of bumping one trade, as `bumpTrades` reports it
through its spinner (`app.js` lines 140-152): success or failure, each
carrying only the elapsed seconds (`moment().diff(start)`).  The catch
block binds the thrown error but does not put it into the reported
outcome (error logging to file is an unimplemented TODO at line 146). -/
inductive ItemOutcome
  | succeeded (elapsed : Nat)
  | failed (elapsed : Nat)
deriving DecidableEq, Repr

/-- One iteration of the `bumpTrades` loop (`app.js` lines 114-154): run the
trade's primitive steps inside try/catch; a raised failure is caught and
turned into a `failed` outcome, never re-raised. -/
def execute (dur : Action → Nat) (fail : Action → Bool) (target : Target)
    (tradeUrl : Option String) : ItemOutcome :=
  match runSteps dur fail (itemSteps target tradeUrl) with
  | Except.ok t => ItemOutcome.succeeded t
  | Except.error (t, _) => ItemOutcome.failed t

/-- The `bumpTrades` loop from trade index `i` on: each trade is processed
in sequence with its own failure environment `failOf i`, and the loop always
continues to the next trade whatever the outcome. -/
def bumpTradesFrom (dur : Action → Nat) (failOf : Nat → Action → Bool)
    (target : Target) : Nat → List (Option String) → List ItemOutcome
  | _, [] => []
  | i, url :: rest =>
      execute dur (failOf i) target url
        :: bumpTradesFrom dur failOf target (i + 1) rest

/-- `bumpTrades` (`app.js` lines 113-157): the per-trade outcomes, in the
order the trade URLs were discovered. -/
def bumpTrades (dur : Action → Nat) (failOf : Nat → Action → Bool)
    (target : Target) (tradeUrls : List (Option String)) : List ItemOutcome :=
  bumpTradesFrom dur failOf target 0 tradeUrls

/-- The steps the body of `bumpTrades` actually performs for one trade under
failure environment `fail`: the prefix of `itemSteps` up to and including
the first failing primitive (the raise aborts the rest of the try-block). -/
def executedSteps (fail : Action → Bool) : List Action → List Action
  | [] => []
  | a :: rest => if fail a then [a] else a :: executedSteps fail rest

/-- All primitives performed across one cycle's bump loop, concatenated in
trade order, starting from trade index `i`. -/
def cycleStepsFrom (failOf : Nat → Action → Bool) (target : Target) :
    Nat → List (Option String) → List Action
  | _, [] => []
  | i, url :: rest =>
      executedSteps (failOf i) (itemSteps target url)
        ++ cycleStepsFrom failOf target (i + 1) rest

/-- All primitives performed across one cycle's bump loop. -/
def cycleSteps (failOf : Nat → Action → Bool) (target : Target)
    (tradeUrls : List (Option String)) : List Action :=
  cycleStepsFrom failOf target 0 tradeUrls

/-- Whether a primitive is the 10-second bump cooldown (`app.js` line 133). -/
def isCooldown : Action → Bool
  | Action.delayMs ms => ms == 1000 * 10
  | _ => false

/-- JavaScript array indexing `l[i]`: `undefined` (`none`) outside bounds,
including at a negative index. -/
def jsGet (l : List String) (i : Int) : Option String :=
  if i < 0 then none else l[i.toNat]?

/-- The selection step at the end of `scrapeTrades` (`app.js` line 100):
`if (args.target === 'oldest') tradeUrls = [tradeUrls[tradeUrls.length - 1]]`.
For `all` the scraped URLs pass through unchanged (every scraped href is a
defined string, hence `some`). -/
def scrapeSelect (target : Target) (tradeUrls : List String) :
    List (Option String) :=
  match target with
  | Target.oldest => [jsGet tradeUrls ((tradeUrls.length : Int) - 1)]
  | Target.all => tradeUrls.map some

/-- Stored preferences (`com.jamiestraw.dodgem`): each credential is `none`
when never set, JavaScript `undefined`. -/
structure Prefs where
  emailAddress : Option String
  password : Option String
deriving DecidableEq, Repr

/-- URL of the login page (`app.js` line 53). -/
def loginUrl : String := "https://rocket-league.com/login"

/-- Selector of the email input (`app.js` line 56). -/
def emailSelector : String := ".rlg-form .rlg-input[type=\"email\"]"

/-- Selector of the password input (`app.js` line 60). -/
def passwordSelector : String := ".rlg-form .rlg-input[type=\"password\"]"

/-- Selector of the login submit button (`app.js` line 64). -/
def loginSubmitSelector : String := ".rlg-form .rlg-btn-primary[type=\"submit\"]"

/-- The primitive sequence `login` performs (`app.js` lines 45-69): it
navigates to the login page first and only then touches the stored
credentials, typing them (possibly `undefined`) into the form; no
credential presence check precedes the navigation. -/
def loginSteps (prefs : Prefs) : List Action :=
  [Action.goto (some loginUrl),
   Action.focus emailSelector, Action.typeText prefs.emailAddress,
   Action.focus passwordSelector, Action.typeText prefs.password,
   Action.click loginSubmitSelector, Action.waitForNavigation]

/-- Process-level events of the `bump` command's promise chain and its
`setTimeout` rescheduling.  `scheduleEv` carries the absolute time (in
milliseconds) announced as the next run (`moment().add(minutes, 'minutes')`
at the moment `scheduleBumpTrades` runs); `waitEv` carries a `setTimeout`
delay in milliseconds. -/
inductive Event
  | loginEv
  | scrapeEv
  | bumpEv
  | scheduleEv (nextRunTs : Nat)
  | waitEv (ms : Nat)
deriving DecidableEq, Repr

/-- Whether an event is a cycle's scrape phase, the entry point of every
cycle's `scrapeTrades -> bumpTrades -> scheduleBumpTrades` chain. -/
def isScrape : Event → Bool
  | Event.scrapeEv => true
  | _ => false

/-- Whether an event is the login step. -/
def isLoginStep : Event → Bool
  | Event.loginEv => true
  | _ => false

/-- Whether an event is a `scheduleBumpTrades` announcement. -/
def isSchedule : Event → Bool
  | Event.scheduleEv _ => true
  | _ => false

/-- The repeated cycle chain `scrapeTrades(...).then(bumpTrades).then(scheduleBumpTrades)`
(`app.js` lines 172-176), with explicit time.  A cycle starting at time `t`
(cycle index `i`) scrapes for `scrapeDur i` ms and bumps for `bumpDur i` ms;
`scheduleBumpTrades` then announces `now + 60000 * interval`, and `setTimeout`
suspends for `60000 * interval` ms before the next cycle starts.  When the
cycle's scrape rejects (`scrapeOk i = false`), the `.then` chain has no catch:
`bumpTrades` and `scheduleBumpTrades` never run and no further cycle is
scheduled — the trace ends at the failed scrape.  `fuel` bounds how many
cycles are unrolled (the program itself never stops rescheduling). -/
def runCycles (interval : Nat) (scrapeOk : Nat → Bool)
    (scrapeDur bumpDur : Nat → Nat) : Nat → Nat → Nat → List Event
  | 0, _, _ => []
  | fuel + 1, i, t =>
      if scrapeOk i then
        Event.scrapeEv :: Event.bumpEv
          :: Event.scheduleEv (t + scrapeDur i + bumpDur i + 60000 * interval)
          :: Event.waitEv (60000 * interval)
          :: runCycles interval scrapeOk scrapeDur bumpDur fuel (i + 1)
               (t + scrapeDur i + bumpDur i + 60000 * interval)
      else [Event.scrapeEv]

/-- The `bump` command's action (`app.js` lines 241-247):
`boot(...).then(login).then(scrapeTrades).then(bumpTrades).then(scheduleBumpTrades)`.
Login runs once, at process start, taking `loginDur` ms; when it rejects
(`loginOk = false`) the chain has no catch, so nothing after it — not even
one scrape — runs.  All later cycles come from `runCycles`, which performs
no login. -/
def bumpCommand (interval : Nat) (loginOk : Bool) (loginDur : Nat)
    (scrapeOk : Nat → Bool) (scrapeDur bumpDur : Nat → Nat)
    (fuel t0 : Nat) : List Event :=
  if loginOk then
    Event.loginEv
      :: runCycles interval scrapeOk scrapeDur bumpDur fuel 0 (t0 + loginDur)
  else [Event.loginEv]

/-! ## Helper lemmas -/

lemma executedSteps_of_no_failure (l : List Action) :
    executedSteps (fun _ => false) l = l := by
  induction l with
  | nil => rfl
  | cons a rest ih => simp [executedSteps, ih]

lemma itemSteps_countP_cooldown (target : Target) (url : Option String) :
    (itemSteps target url).countP isCooldown
      = (if target = Target.all then 1 else 0) := by
  cases target <;> simp [itemSteps, isCooldown, List.countP_cons]

lemma cycleStepsFrom_countP_cooldown (target : Target) :
    ∀ (urls : List (Option String)) (i : Nat),
      (cycleStepsFrom (fun _ _ => false) target i urls).countP isCooldown
        = (if target = Target.all then urls.length else 0) := by
  intro urls
  induction urls with
  | nil => intro i; cases target <;> simp [cycleStepsFrom]
  | cons url rest ih =>
      intro i
      have h1 := itemSteps_countP_cooldown target url
      have h2 := ih (i + 1)
      cases target <;>
        simp_all [cycleStepsFrom, List.countP_append, executedSteps_of_no_failure,
          Nat.add_comm]

lemma bumpTradesFrom_length (dur : Action → Nat) (failOf : Nat → Action → Bool)
    (target : Target) :
    ∀ (urls : List (Option String)) (i : Nat),
      (bumpTradesFrom dur failOf target i urls).length = urls.length := by
  intro urls
  induction urls with
  | nil => intro i; rfl
  | cons url rest ih => intro i; simp [bumpTradesFrom, ih]

lemma bumpTradesFrom_getElem (dur : Action → Nat) (failOf : Nat → Action → Bool)
    (target : Target) :
    ∀ (urls : List (Option String)) (i j : Nat),
      (bumpTradesFrom dur failOf target i urls)[j]?
        = Option.map (fun url => execute dur (failOf (i + j)) target url)
            urls[j]? := by
  intro urls
  induction urls with
  | nil => intro i j; simp [bumpTradesFrom]
  | cons url rest ih =>
      intro i j
      cases j with
      | zero => simp [bumpTradesFrom]
      | succ j =>
          have h := ih (i + 1) j
          have harith : i + 1 + j = i + (j + 1) := by omega
          simpa [bumpTradesFrom, harith] using h

lemma jsGet_length_sub_one (urls : List String) :
    jsGet urls ((urls.length : Int) - 1) = urls.getLast? := by
  cases urls with
  | nil => simp [jsGet]
  | cons a rest =>
      rw [List.getLast?_eq_getElem?]
      have harith : ((a :: rest).length : Int) - 1 = (rest.length : Int) := by
        simp
      simp [jsGet, harith]

lemma runCycles_countP_allTrue (interval : Nat) (sd bd : Nat → Nat)
    (p : Event → Bool) (c : Nat)
    (hblock : ∀ v w, List.countP p
      [Event.scrapeEv, Event.bumpEv, Event.scheduleEv v, Event.waitEv w] = c) :
    ∀ (fuel i t : Nat),
      (runCycles interval (fun _ => true) sd bd fuel i t).countP p = c * fuel := by
  intro fuel
  induction fuel with
  | zero => intro i t; simp [runCycles]
  | succ n ih =>
      intro i t
      have hb := hblock (t + sd i + bd i + 60000 * interval) (60000 * interval)
      have hr := ih (i + 1) (t + sd i + bd i + 60000 * interval)
      simp only [List.countP_cons, List.countP_nil] at hb
      simp only [runCycles, if_true, List.countP_cons, hr]
      rw [Nat.mul_succ]
      omega

lemma runCycles_countP_login (interval : Nat) (scrapeOk : Nat → Bool)
    (sd bd : Nat → Nat) :
    ∀ (fuel i t : Nat),
      (runCycles interval scrapeOk sd bd fuel i t).countP isLoginStep = 0 := by
  intro fuel
  induction fuel with
  | zero => intro i t; simp [runCycles]
  | succ n ih =>
      intro i t
      cases h : scrapeOk i <;>
        simp [runCycles, h, List.countP_cons, isLoginStep, ih]

lemma runCycles_wait_eq_interval (interval : Nat) (sd bd : Nat → Nat) :
    ∀ (fuel i t w : Nat),
      Event.waitEv w ∈ runCycles interval (fun _ => true) sd bd fuel i t →
        w = 60000 * interval := by
  intro fuel
  induction fuel with
  | zero => intro i t w h; simp [runCycles] at h
  | succ n ih =>
      intro i t w h
      simp only [runCycles, if_true, List.mem_cons] at h
      rcases h with h | h | h | h | h
      · exact absurd h (by simp)
      · exact absurd h (by simp)
      · exact absurd h (by simp)
      · exact (Event.waitEv.injEq _ _).mp h
      · exact ih _ _ _ h

lemma runCycles_scrape_preceded_by_wait (interval : Nat) (sd bd : Nat → Nat) :
    ∀ (fuel i t j : Nat), 0 < j →
      (runCycles interval (fun _ => true) sd bd fuel i t)[j]?
          = some Event.scrapeEv →
      (runCycles interval (fun _ => true) sd bd fuel i t)[j - 1]?
          = some (Event.waitEv (60000 * interval)) := by
  intro fuel
  induction fuel with
  | zero => intro i t j _ h; simp [runCycles] at h
  | succ n ih =>
      intro i t j hj h
      rcases j with _ | _ | _ | _ | _ | j
      · exact absurd hj (by omega)
      · simp [runCycles] at h
      · simp [runCycles] at h
      · simp [runCycles] at h
      · simp [runCycles]
      · simp only [runCycles, if_true, Nat.add_sub_cancel,
          List.getElem?_cons_succ] at h ⊢
        have hr := ih _ _ (j + 1) (by omega) h
        simpa using hr

/-! ## Claims -/

/-- Claim C1, counterexample: the rescheduling loop is not unconditional.
When authentication rejects, the whole `bump` chain dies at `login`: no
scrape, no schedule, no next cycle.  When a cycle's scrape rejects, the
`.then` chain has no catch, so that cycle ends with no `scheduleBumpTrades`
call and no further cycle is ever triggered. -/
theorem claim_C1_cex :
    bumpCommand 15 false 0 (fun _ => true) (fun _ => 0) (fun _ => 0) 5 0
        = [Event.loginEv]
      ∧ (runCycles 15 (fun _ => false) (fun _ => 0) (fun _ => 0) 5 0 0).countP
          isSchedule = 0
      ∧ (runCycles 15 (fun _ => false) (fun _ => 0) (fun _ => 0) 5 0 0).countP
          isScrape = 1 := by
  refine ⟨rfl, rfl, rfl⟩

/-- Claim C1, amended: the scheduler reschedules after a cycle exactly when
that cycle's discovery chain resolves.  A cycle whose scrape rejects
produces no schedule announcement and no wait, and ends the whole loop;
when every scrape resolves, each of the `fuel` unrolled cycles produces
exactly one schedule announcement. -/
theorem claim_C1 (interval : Nat) (scrapeOk : Nat → Bool)
    (sd bd : Nat → Nat) (fuel i t : Nat) :
    (scrapeOk i = false →
        runCycles interval scrapeOk sd bd (fuel + 1) i t = [Event.scrapeEv])
      ∧ ((∀ j, scrapeOk j = true) →
          (runCycles interval scrapeOk sd bd fuel i t).countP isSchedule
            = fuel) := by
  constructor
  · intro h
    simp [runCycles, h]
  · intro hall
    have hfun : scrapeOk = fun _ => true := funext fun j => hall j
    subst hfun
    have hcount := runCycles_countP_allTrue interval sd bd isSchedule 1
      (fun v w => by rfl) fuel i t
    simpa using hcount

/-- Claim C1, witness: with every scrape resolving, three unrolled cycles
announce three schedules; with the first scrape rejecting, the trace is the
lone failed scrape. -/
theorem claim_C1_witness :
    runCycles 15 (fun _ => false) (fun _ => 0) (fun _ => 0) 1 0 0
        = [Event.scrapeEv]
      ∧ (runCycles 15 (fun _ => true) (fun _ => 0) (fun _ => 0) 3 0 0).countP
          isSchedule = 3 := by
  constructor
  · exact (claim_C1 15 (fun _ => false) (fun _ => 0) (fun _ => 0) 0 0 0).1 rfl
  · exact (claim_C1 15 (fun _ => true) (fun _ => 0) (fun _ => 0) 3 0 0).2
      (fun j => rfl)

/-- Claim C2, counterexample: the reported outcome does not carry the
failure's cause.  Two different injected failures — the trade-page
navigation rejecting versus the edit click rejecting — raise two different
causes, yet `bumpTrades` reports the identical outcome for both, because
the catch block drops the caught error (error logging is a TODO). -/
theorem claim_C2_cex :
    execute (fun _ => 0) (fun a => a == Action.goto (some "u"))
          Target.all (some "u")
        = execute (fun _ => 0) (fun a => a == Action.click editSelector)
          Target.all (some "u")
      ∧ runSteps (fun _ => 0) (fun a => a == Action.goto (some "u"))
          (itemSteps Target.all (some "u"))
        = Except.error (0, Action.goto (some "u"))
      ∧ runSteps (fun _ => 0) (fun a => a == Action.click editSelector)
          (itemSteps Target.all (some "u"))
        = Except.error (0, Action.click editSelector)
      ∧ ¬(Action.goto (some "u") = Action.click editSelector) := by
  refine ⟨rfl, rfl, rfl, by decide⟩

/-- Claim C2, amended: the per-trade executor never raises.  Whatever
failure the environment injects into any of the trade's navigation, edit,
cooldown or submit steps, the raised exception is caught and `execute`
returns a failed outcome with the elapsed time; the cause itself is
discarded, not propagated and not part of the outcome.  With no injected
failure the outcome is success. -/
theorem claim_C2 (dur : Action → Nat) (fail : Action → Bool)
    (target : Target) (tradeUrl : Option String) :
    (∃ t, runSteps dur fail (itemSteps target tradeUrl) = Except.ok t
        ∧ execute dur fail target tradeUrl = ItemOutcome.succeeded t)
      ∨ (∃ t c, runSteps dur fail (itemSteps target tradeUrl)
            = Except.error (t, c)
          ∧ execute dur fail target tradeUrl = ItemOutcome.failed t) := by
  rcases h : runSteps dur fail (itemSteps target tradeUrl) with ⟨t, c⟩ | t
  · exact Or.inr ⟨t, c, rfl, by simp [execute, h]⟩
  · exact Or.inl ⟨t, rfl, by simp [execute, h]⟩

/-- Claim C3, counterexample: cycles after the first do not re-authenticate.
A two-cycle run of the `bump` command performs two scrape-and-bump cycles
but exactly one login — the rescheduled chain is
`scrapeTrades -> bumpTrades -> scheduleBumpTrades`, with no login step, so
the second cycle reuses the session logged in at process start. -/
theorem claim_C3_cex :
    (bumpCommand 15 true 0 (fun _ => true) (fun _ => 0) (fun _ => 0) 2 0).countP
        isLoginStep = 1
      ∧ (bumpCommand 15 true 0 (fun _ => true) (fun _ => 0) (fun _ => 0)
          2 0).countP isScrape = 2 := by
  refine ⟨rfl, rfl⟩

/-- Claim C3, amended: authentication happens exactly once per process, in
the `bump` command's initial chain; no rescheduled cycle contains a login
step, so every cycle after the first reuses the first cycle's session. -/
theorem claim_C3 (interval : Nat) (loginOk : Bool) (loginDur : Nat)
    (scrapeOk : Nat → Bool) (sd bd : Nat → Nat) (fuel t0 i t fuel2 : Nat) :
    (bumpCommand interval loginOk loginDur scrapeOk sd bd fuel t0).countP
        isLoginStep = 1
      ∧ (runCycles interval scrapeOk sd bd fuel2 i t).countP
          isLoginStep = 0 := by
  constructor
  · cases loginOk <;>
      simp [bumpCommand, List.countP_cons, isLoginStep,
        runCycles_countP_login]
  · exact runCycles_countP_login interval scrapeOk sd bd fuel2 i t

/-- Claim C4, counterexample: with an empty scraped listing, oldest-mode
selection does not return an empty sequence.  The source builds
`[tradeUrls[tradeUrls.length - 1]]`, and indexing an empty JavaScript array
at `-1` yields `undefined`, so the result is the one-element sequence
`[undefined]`, not `[]`. -/
theorem claim_C4_cex :
    scrapeSelect Target.oldest [] = [none]
      ∧ ¬(scrapeSelect Target.oldest [] = []) := by
  refine ⟨rfl, by decide⟩

/-- Claim C4, amended: oldest-mode selection always returns a sequence of
length exactly one (hence at most one): the JavaScript index
`tradeUrls.length - 1`, which is the last element when the listing is
non-empty and `undefined` when the listing is empty. -/
theorem claim_C4 (tradeUrls : List String) :
    (scrapeSelect Target.oldest tradeUrls).length = 1
      ∧ scrapeSelect Target.oldest tradeUrls = [tradeUrls.getLast?]
      ∧ ∀ h : tradeUrls ≠ [],
          scrapeSelect Target.oldest tradeUrls
            = [some (tradeUrls.getLast h)] := by
  refine ⟨rfl, ?_, ?_⟩
  · simp [scrapeSelect, jsGet_length_sub_one]
  · intro h
    simp [scrapeSelect, jsGet_length_sub_one, List.getLast?_eq_getLast _ h]

/-- Claim C4, witness: a concrete two-element listing reduces in oldest
mode to the one-element sequence holding its last element. -/
theorem claim_C4_witness :
    (scrapeSelect Target.oldest ["a", "b"]).length = 1
      ∧ scrapeSelect Target.oldest ["a", "b"] = [some "b"] := by
  have h := claim_C4 ["a", "b"]
  exact ⟨h.1, h.2.2 (by decide)⟩

/-- Claim C5, confirmed: the bump loop produces exactly one outcome per
discovered trade, in the exact discovery order, whatever failures are
injected into whichever trades — the per-trade try/catch absorbs each
failure and the loop never terminates early. -/
theorem claim_C5 (dur : Action → Nat) (failOf : Nat → Action → Bool)
    (target : Target) (tradeUrls : List (Option String)) :
    (bumpTrades dur failOf target tradeUrls).length = tradeUrls.length
      ∧ ∀ j : Nat, (bumpTrades dur failOf target tradeUrls)[j]?
          = Option.map (fun url => execute dur (failOf j) target url)
              tradeUrls[j]? := by
  constructor
  · exact bumpTradesFrom_length dur failOf target tradeUrls 0
  · intro j
    have h := bumpTradesFrom_getElem dur failOf target tradeUrls 0 j
    simpa using h

/-- Claim C6, counterexample: the next-run time is computed from the
triggering cycle's completion, not from its start.  A cycle starting at
time 0 with a 1-second scrape and a 30-second bump phase (three trades,
each with its 10-second cooldown), interval 15 minutes, announces the next
run at 931000 ms, not at the 900000 ms that "15 minutes after cycle start"
would give. -/
theorem claim_C6_cex :
    runCycles 15 (fun _ => true) (fun _ => 1000) (fun _ => 30000) 1 0 0
        = [Event.scrapeEv, Event.bumpEv, Event.scheduleEv 931000,
           Event.waitEv 900000]
      ∧ ¬(931000 = 0 + 60000 * 15) := by
  refine ⟨rfl, by decide⟩

/-- Claim C6, amended: for a cycle that starts at time `t` and whose scrape
resolves, `scheduleBumpTrades` runs only after the scrape and bump phases
finish and announces `completion + interval`, i.e.
`t + scrapeDur + bumpDur + 60000 * interval` — the interval is measured
from the cycle's completion, so it is `t + interval` exactly when the cycle
takes no time. -/
theorem claim_C6 (interval : Nat) (scrapeOk : Nat → Bool)
    (sd bd : Nat → Nat) (fuel i t : Nat) (h : scrapeOk i = true) :
    (runCycles interval scrapeOk sd bd (fuel + 1) i t)[2]?
      = some (Event.scheduleEv (t + sd i + bd i + 60000 * interval)) := by
  simp [runCycles, h]

/-- Claim C6, witness: the amended claim at the counterexample's cycle —
scrape 1000 ms, bump 30000 ms, interval 15, start 0 — announces 931000. -/
theorem claim_C6_witness :
    (runCycles 15 (fun _ => true) (fun _ => 1000) (fun _ => 30000)
        1 0 0)[2]? = some (Event.scheduleEv 931000) := by
  have h := claim_C6 15 (fun _ => true) (fun _ => 1000) (fun _ => 30000)
    0 0 0 rfl
  simpa using h

/-- Claim C7, confirmed: over any number of consecutive successful cycles,
`fuel` unrolled cycles perform exactly `fuel` scrape-and-bump invocations;
the first event of a run is the scrape itself (no initial wait), every
`setTimeout` suspension in the trace is exactly `60000 * interval` ms, and
every invocation except the first is immediately preceded by such a
suspension. -/
theorem claim_C7 (interval : Nat) (sd bd : Nat → Nat) (fuel i t : Nat) :
    ((runCycles interval (fun _ => true) sd bd fuel i t).countP isScrape
        = fuel)
      ∧ ((runCycles interval (fun _ => true) sd bd (fuel + 1) i t)[0]?
          = some Event.scrapeEv)
      ∧ (∀ w, Event.waitEv w ∈ runCycles interval (fun _ => true) sd bd fuel i t
          → w = 60000 * interval)
      ∧ (∀ j, 0 < j →
          (runCycles interval (fun _ => true) sd bd fuel i t)[j]?
              = some Event.scrapeEv →
          (runCycles interval (fun _ => true) sd bd fuel i t)[j - 1]?
              = some (Event.waitEv (60000 * interval))) := by
  refine ⟨?_, ?_, ?_, ?_⟩
  · have h := runCycles_countP_allTrue interval sd bd isScrape 1
      (fun v w => by rfl) fuel i t
    simpa using h
  · simp [runCycles]
  · exact fun w => runCycles_wait_eq_interval interval sd bd fuel i t w
  · exact fun j => runCycles_scrape_preceded_by_wait interval sd bd fuel i t j

/-- Claim C7, witness: two successful cycles at interval 15 contain two
invocations; the second one sits at index 4, right after the 900000 ms
suspension at index 3. -/
theorem claim_C7_witness :
    ((runCycles 15 (fun _ => true) (fun _ => 0) (fun _ => 0) 2 0 0).countP
        isScrape = 2)
      ∧ ((runCycles 15 (fun _ => true) (fun _ => 0) (fun _ => 0) 2 0 0)[3]?
          = some (Event.waitEv 900000)) := by
  have h := claim_C7 15 (fun _ => 0) (fun _ => 0) 2 0 0
  refine ⟨h.1, ?_⟩
  have h4 := h.2.2.2 4 (by decide) (by rfl)
  simpa using h4

/-- Claim C8, confirmed: the per-trade step sequence inserts the fixed
10-second cooldown between the edit step's navigation wait and the save
click exactly when the target is `all`; in oldest mode the sequence goes
straight from edit to save with no cooldown anywhere. -/
theorem claim_C8 (tradeUrl : Option String) :
    itemSteps Target.all tradeUrl
        = [Action.goto tradeUrl, Action.click editSelector,
           Action.waitForNavigation, Action.delayMs (1000 * 10),
           Action.click saveSelector, Action.waitForNavigation]
      ∧ itemSteps Target.oldest tradeUrl
        = [Action.goto tradeUrl, Action.click editSelector,
           Action.waitForNavigation,
           Action.click saveSelector, Action.waitForNavigation]
      ∧ (itemSteps Target.oldest tradeUrl).countP isCooldown = 0 := by
  refine ⟨rfl, rfl, rfl⟩

/-- Claim C9, counterexample: with no stored credentials at all, `login`
does not fail early — its very first primitive is still the navigation to
the login page, after which it types the missing (`undefined`) credentials
into the form.  No credential-presence check precedes navigation. -/
theorem claim_C9_cex :
    (loginSteps { emailAddress := none, password := none }).head?
        = some (Action.goto (some loginUrl))
      ∧ Action.typeText none
          ∈ loginSteps { emailAddress := none, password := none } := by
  refine ⟨rfl, by simp [loginSteps]⟩

/-- Claim C9, amended: `login` never checks the stored credentials before
navigating: whatever the preferences hold (present or missing), the first
primitive performed is the navigation to the login page, and the stored
values are only consumed afterwards, typed into the form fields. -/
theorem claim_C9 (email pw : Option String) :
    (loginSteps { emailAddress := email, password := pw }).head?
        = some (Action.goto (some loginUrl))
      ∧ Action.typeText email
          ∈ loginSteps { emailAddress := email, password := pw }
      ∧ Action.typeText pw
          ∈ loginSteps { emailAddress := email, password := pw } := by
  refine ⟨rfl, by simp [loginSteps], by simp [loginSteps]⟩

/-- Claim C10, confirmed: with no failures injected, the bump loop performs
the 10-second cooldown exactly once per trade when the target is `all` —
including for a one-trade sequence, where the count is the length 1 — and
never in oldest mode: whether the cooldown runs depends only on the
selection mode, not on how many trades the cycle holds. -/
theorem claim_C10 (target : Target) (tradeUrls : List (Option String)) :
    (cycleSteps (fun _ _ => false) target tradeUrls).countP isCooldown
      = (if target = Target.all then tradeUrls.length else 0) := by
  exact cycleStepsFrom_countP_cooldown target tradeUrls 0

end Dodgem
